import Mathlib

/-!
# tracebox, `src/tracebox/lua/lua_utils.cpp`

A shallow embedding of the Lua bridge helpers of tracebox:
`print_object`, `stackDump`, `l_sleep`, `l_dn`, `l_dn4`, `l_dn6`.

The Lua C API the file calls is modelled after the Lua 5.2 reference manual
and `lapi.c`; the operating system calls (`nanosleep`, `getaddrinfo`,
`getnameinfo`) are arguments of the embedded functions.  An `std::ostream`
is the text written to it so far.
-/

namespace Tracebox

/-! ## Lua values and the engine state -/

/-- Lua values, one constructor per basic type tag.  The embedding covers
the integer-valued numbers: `number n` is the `lua_Number` whose value is
the integer `n`; numbers with a fraction, infinities and NaN are not
values of it.  A full `userdata` of this program wraps a `_ref_base*`;
`dbg` is the text its virtual `debug(std::ostream&)` writes. -/
inductive TValue where
  | nil
  | boolean (b : Bool)
  | lightuserdata (p : Nat)
  | number (n : Int)
  | string (s : String)
  | table (id : Nat)
  | function (id : Nat)
  | userdata (p : Nat) (dbg : String)
  | thread (id : Nat)
  deriving DecidableEq

/-- The entries of a table in the order in which `lua_next` traverses it. -/
abbrev Table := List (TValue × TValue)

/-- The part of `lua_State` the file touches: `slots` is `L->stack` up to
`L->top` (bottom first), `func` the position of `L->ci->func`, so that the
current frame is `slots[func+1 ..]`; `l_gt` is the content of the table of
globals and `gtId` its identity. -/
structure lua_State where
  slots : List TValue
  func : Nat
  l_gt : Table
  gtId : Nat
  deriving DecidableEq

/-- Outcome of a call into the engine: a normal return, a Lua error raised
with `lua_error` (a `longjmp` out of the C function), or a loop of the model
that used up its iteration budget. -/
inductive Result (α : Type) where
  | ret (a : α)
  | raise (msg : String)
  | fuel
  deriving DecidableEq

def LUA_TNONE : Int := -1
def LUA_TNIL : Int := 0
def LUA_TBOOLEAN : Int := 1
def LUA_TLIGHTUSERDATA : Int := 2
def LUA_TNUMBER : Int := 3
def LUA_TSTRING : Int := 4
def LUA_TTABLE : Int := 5
def LUA_TFUNCTION : Int := 6
def LUA_TUSERDATA : Int := 7
def LUA_TTHREAD : Int := 8

/-- Type tag of a value (`ttypenv`). -/
def ttype : TValue → Int
  | .nil => LUA_TNIL
  | .boolean _ => LUA_TBOOLEAN
  | .lightuserdata _ => LUA_TLIGHTUSERDATA
  | .number _ => LUA_TNUMBER
  | .string _ => LUA_TSTRING
  | .table _ => LUA_TTABLE
  | .function _ => LUA_TFUNCTION
  | .userdata _ _ => LUA_TUSERDATA
  | .thread _ => LUA_TTHREAD

/-- The name table `luaT_typenames_` behind `lua_typename`. -/
def lua_typename (t : Int) : String :=
  if t = LUA_TNONE then "no value"
  else if t = LUA_TNIL then "nil"
  else if t = LUA_TBOOLEAN then "boolean"
  else if t = LUA_TLIGHTUSERDATA then "userdata"
  else if t = LUA_TNUMBER then "number"
  else if t = LUA_TSTRING then "string"
  else if t = LUA_TTABLE then "table"
  else if t = LUA_TFUNCTION then "function"
  else if t = LUA_TUSERDATA then "userdata"
  else if t = LUA_TTHREAD then "thread"
  else "?"

/-- The function `lua_gettop`: `L->top - (L->ci->func + 1)`. -/
def lua_gettop (L : lua_State) : Int :=
  (L.slots.length : Int) - ((L.func : Int) + 1)

/-- The function `index2addr` for stack indices: a positive index counts from
`ci->func`, a negative one from `L->top`; `none` is an index that is not
acceptable. -/
def index2addr (L : lua_State) (idx : Int) : Option Nat :=
  if 0 < idx then
    if L.func + idx.toNat < L.slots.length then some (L.func + idx.toNat) else none
  else if idx < 0 ∧ -idx ≤ lua_gettop L then some (L.slots.length - (-idx).toNat)
  else none

/-- The value at a stack index, when the index is valid. -/
def slotAt (L : lua_State) (idx : Int) : Option TValue :=
  match index2addr L idx with
  | some o => L.slots[o]?
  | none => none

def lua_type (L : lua_State) (idx : Int) : Int :=
  match slotAt L idx with
  | some v => ttype v
  | none => LUA_TNONE

/-- The function `lua_settop`: a non-negative index sets the depth of the frame (new
slots are nil); a negative one moves `L->top` by `idx + 1` (the release
build of `lapi.c` does not check that the frame holds that many slots). -/
def lua_settop (L : lua_State) (idx : Int) : lua_State :=
  if 0 ≤ idx then
    { L with slots := L.slots.take (L.func + 1 + idx.toNat)
                      ++ List.replicate (L.func + 1 + idx.toNat - L.slots.length) TValue.nil }
  else
    { L with slots := L.slots.take ((L.slots.length : Int) + idx + 1).toNat }

/-- The macro `lua_pop(L,n)`, which is `lua_settop(L, -(n)-1)`. -/
def lua_pop (L : lua_State) (n : Int) : lua_State :=
  lua_settop L (-n - 1)

def lua_pushvalue_raw (L : lua_State) (v : TValue) : lua_State :=
  { L with slots := L.slots ++ [v] }

def lua_pushnil (L : lua_State) : lua_State := lua_pushvalue_raw L TValue.nil

def lua_pushstring (L : lua_State) (s : String) : lua_State :=
  lua_pushvalue_raw L (TValue.string s)

def lua_pushglobaltable (L : lua_State) : lua_State :=
  lua_pushvalue_raw L (TValue.table L.gtId)

def lua_isstring (L : lua_State) (idx : Int) : Bool :=
  decide (lua_type L idx = LUA_TSTRING) || decide (lua_type L idx = LUA_TNUMBER)

def lua_toboolean (L : lua_State) (idx : Int) : Bool :=
  match slotAt L idx with
  | some (.boolean b) => b
  | some .nil => false
  | some _ => true
  | none => false

def lua_tonumber (L : lua_State) (idx : Int) : Int :=
  match slotAt L idx with
  | some (.number n) => n
  | _ => 0

/-- What a `const char*` shows of a Lua string: the characters before the
first NUL. -/
def c_str (s : String) : String :=
  String.mk (s.data.takeWhile (fun c => c ≠ Char.ofNat 0))

/-! ## Number formatting -/

/-- Drop the zeros at the end of a digit list. -/
def dropTrailingZeros (ds : List Char) : List Char :=
  (ds.reverse.dropWhile (fun c => c = '0')).reverse

/-- The text of `printf("%.Pg")` for an integer-valued double `n`
(`P ≥ 1`).  With at most `P` digits the value is printed in fixed style
without a fraction; otherwise in exponent style, rounded to `P` significant
digits (ties to even), trailing zeros of the mantissa removed, the exponent
with at least two digits. -/
def fmt_g (P : Nat) (n : Int) : String :=
  let a := n.natAbs
  let sign := if n < 0 then "-" else ""
  if a < 10 ^ P then sign ++ Nat.repr a
  else
    let d := (Nat.toDigits 10 a).length
    let e := d - P
    let q := a / 10 ^ e
    let r := a % 10 ^ e
    let up := decide (10 ^ e < 2 * r) || (decide (2 * r = 10 ^ e) && decide (q % 2 = 1))
    let m := if up then q + 1 else q
    let carry := decide (m = 10 ^ P)
    let m1 := if carry then 10 ^ (P - 1) else m
    let x := if carry then d else d - 1
    let ds := Nat.toDigits 10 m1
    let frac := dropTrailingZeros (ds.drop 1)
    sign ++ String.mk (ds.take 1)
      ++ (if frac = [] then "" else "." ++ String.mk frac)
      ++ "e+" ++ (if x < 10 then "0" else "") ++ Nat.repr x

/-- The operator `std::ostream::operator<<(double)` on a stream in its default state
(general format, precision 6), as `std::ostringstream s;` in
`l_dump_stack` is. -/
def ostream_double (n : Int) : String := fmt_g 6 n

/-- The engine's number-to-text conversion `lua_Number2str`, which is
`sprintf` with `LUA_NUMBER_FMT = "%.14g"`. -/
def lua_Number2str (n : Int) : String := fmt_g 14 n

/-- The function `lua_tolstring`: a string is returned as is; a number is first
converted to a string in its stack slot; anything else gives `NULL`. -/
def lua_tolstring (L : lua_State) (idx : Int) : lua_State × Option String :=
  match index2addr L idx with
  | none => (L, none)
  | some o =>
    match L.slots[o]? with
    | some (.string s) => (L, some s)
    | some (.number n) =>
      ({ L with slots := L.slots.set o (TValue.string (lua_Number2str n)) },
        some (lua_Number2str n))
    | _ => (L, none)

/-- The function `luaL_checkstring`: `lua_tolstring`, with an argument error when it
gives `NULL`. -/
def luaL_checkstring (L : lua_State) (idx : Int) : Result (lua_State × String) :=
  match lua_tolstring L idx with
  | (L1, some s) => Result.ret (L1, s)
  | (_, none) =>
    Result.raise ("bad argument (string expected, got "
      ++ lua_typename (lua_type L idx) ++ ")")

/-- The function `luaH_next` on the traversal order of a table: with a nil key the
first entry; otherwise the entry after the one whose key is `key`; the
outer `none` is the error of `findindex` for a key that is not in the
table. -/
def luaH_next : Table → TValue → Option (Option (TValue × TValue))
  | t, TValue.nil => some t.head?
  | [], _ => none
  | (k, _) :: rest, key => if k = key then some rest.head? else luaH_next rest key

/-- The function `lua_next`: takes the key from the top of the stack and puts the next
key and its value there (result 1), or nothing when the traversal is over
(result 0).  Only the content of the table of globals is part of the
state. -/
def lua_next (L : lua_State) (idx : Int) : Result (Int × lua_State) :=
  match slotAt L idx, L.slots.getLast? with
  | some (.table id), some key =>
    if id = L.gtId then
      match luaH_next L.l_gt key with
      | none => Result.raise "invalid key to 'next'"
      | some none => Result.ret (0, { L with slots := L.slots.dropLast })
      | some (some (k, v)) => Result.ret (1, { L with slots := L.slots.dropLast ++ [k, v] })
    else Result.raise "table content not in the model"
  | _, _ => Result.raise "table expected"

/-! ## `print_object` and `stackDump` -/

/-- The function `print_object(L, i, out)`; the result is the engine state
and the stream after the call. -/
def print_object (L : lua_State) (i : Int) (out : String) : lua_State × String :=
  let t := lua_type L i
  let out := out ++ lua_typename t ++ ": "
  if t = LUA_TSTRING then
    match lua_tolstring L i with
    | (L1, some s) => (L1, out ++ c_str s)
    | (L1, none) => (L1, out)
  else if t = LUA_TBOOLEAN then
    (L, out ++ (if lua_toboolean L i then "true" else "false"))
  else if t = LUA_TNUMBER then
    (L, out ++ ostream_double (lua_tonumber L i))
  else if t = LUA_TUSERDATA then
    match slotAt L i with
    | some (.userdata _ dbg) => (L, out ++ dbg)
    | _ => (L, out)
  else
    (L, out)

/-- The `while (lua_next(L,-2) != 0)` loop of `stackDump`, run for at most
`fuel` calls of `lua_next`. -/
def globalsLoop : Nat → lua_State → String → Result (lua_State × String)
  | 0, _, _ => Result.fuel
  | fuel + 1, L, out =>
    match lua_next L (-2) with
    | Result.raise msg => Result.raise msg
    | Result.fuel => Result.fuel
    | Result.ret (more, L1) =>
      if more ≠ 0 then
        let step : Result (lua_State × String) :=
          if lua_isstring L1 (-2) then
            match luaL_checkstring L1 (-2) with
            | Result.ret (L2, s) => Result.ret (L2, out ++ "[" ++ c_str s ++ "] ")
            | Result.raise msg => Result.raise msg
            | Result.fuel => Result.fuel
          else Result.ret (L1, out)
        match step with
        | Result.raise msg => Result.raise msg
        | Result.fuel => Result.fuel
        | Result.ret (L2, out2) =>
          let (L3, out3) := print_object L2 (-1) out2
          let L4 := lua_pop L3 1
          globalsLoop fuel L4 (out3 ++ " / ")
      else Result.ret (L1, out)

/-- The `for (i = 1; i <= top; i++)` loop of `stackDump`; `k` bounds the
number of iterations and the result carries the final value of `i`. -/
def stackLoop (top : Int) : Nat → Int → lua_State → String → lua_State × String × Int
  | 0, i, L, out => (L, out, i)
  | k + 1, i, L, out =>
    if i ≤ top then
      let (L1, out1) := print_object L i (out ++ "[" ++ toString i ++ "] ")
      stackLoop top k (i + 1) L1 (out1 ++ "\n")
    else (L, out, i)

/-- The function `stackDump(L, f, l, out)`; `fuel` bounds the iterations
of the loop over the globals. -/
def stackDump (fuel : Nat) (L : lua_State) (f : String) (l : Nat) (out : String) :
    Result (lua_State × String) :=
  let out0 := out ++ "Globals:" ++ "\n"
  let La := lua_pushglobaltable L
  let Lb := lua_pushnil La
  match globalsLoop fuel Lb out0 with
  | Result.raise msg => Result.raise msg
  | Result.fuel => Result.fuel
  | Result.ret (Lc, out1) =>
    let Ld := lua_pop Lc 1
    let out2 := out1 ++ "------------" ++ "\n"
    let top := lua_gettop Ld
    let out3 := out2 ++ "Stack content (at " ++ f ++ "/" ++ toString l ++ "):" ++ "\n"
    let (Le, out4, i) := stackLoop top top.toNat 1 Ld out3
    let Lf := lua_pop Le i
    Result.ret (Lf, out4 ++ "===========" ++ "\n")

/-! ## `l_sleep` -/

/-- The C `struct timespec`. -/
structure timespec where
  tv_sec : Int
  tv_nsec : Int
  deriving DecidableEq

/-- The operating system as `l_sleep` sees it: the return value of
`nanosleep(&tp, NULL)` and the text `strerror(errno)` after a failed
call. -/
structure Clock where
  nanosleep : timespec → Int
  errtext : timespec → String

/-- What a call of `l_sleep` did: the engine state it leaves, its result
count, the requests it passed to `nanosleep`, and its output on `stderr`. -/
structure SleepOutcome where
  state : lua_State
  nresults : Int
  requested : List timespec
  stderr : String
  deriving DecidableEq

/-- The function `luaL_checkinteger`: a number is returned, a string goes through the
engine's string-to-number coercion `cvt`, anything else is an argument
error.  The integer fits a `long`. -/
def luaL_checkinteger (cvt : String → Option Int) (L : lua_State) (idx : Int) : Result Int :=
  match slotAt L idx with
  | some (.number n) => Result.ret n
  | some (.string s) =>
    match cvt s with
    | some n => Result.ret n
    | none => Result.raise "bad argument (number expected, got string)"
  | _ => Result.raise ("bad argument (number expected, got "
      ++ lua_typename (lua_type L idx) ++ ")")

/-- The `timespec` that `l_sleep` builds from `ms`; `/` and `%` of C
truncate towards zero. -/
def l_sleep_tp (ms : Int) : timespec :=
  { tv_nsec := 1000 * (Int.tmod ms 1000), tv_sec := Int.tdiv ms 1000 }

/-- The function `l_sleep`. -/
def l_sleep (os : Clock) (cvt : String → Option Int) (L : lua_State) : Result SleepOutcome :=
  match luaL_checkinteger cvt L 1 with
  | Result.raise msg => Result.raise msg
  | Result.fuel => Result.fuel
  | Result.ret ms =>
    let tp := l_sleep_tp ms
    let err := if os.nanosleep tp ≠ 0 then "sleep() failed" ++ ": " ++ os.errtext tp ++ "\n" else ""
    Result.ret { state := L, nresults := 0, requested := [tp], stderr := err }

/-- Nanoseconds asked for by a `timespec`. -/
def timespec.nanos (tp : timespec) : Int := tp.tv_sec * 10 ^ 9 + tp.tv_nsec

/-! ## `l_dn` -/

/-- A socket address as returned in `rp->ai_addr`. -/
structure sockaddr where
  family : Int
  bytes : List Nat
  deriving DecidableEq

/-- The resolver of the C library: `getaddrinfo host family` gives the
error code and, when that is 0, the address of the first entry of the result
list; `getnameinfo a buf` gives its return value and the content of the host
buffer after the call, `buf` being the content before it. -/
structure Net where
  getaddrinfo : String → Int → Int × sockaddr
  gai_strerror : Int → String
  getnameinfo : sockaddr → String → Int × String

def AF_INET : Int := 2
def AF_INET6 : Int := 10

/-- What a call of `l_dn` did: the engine state it leaves, its result
count and its output on `std::cerr`. -/
structure DnOutcome where
  state : lua_State
  nresults : Int
  cerr : String
  deriving DecidableEq

/-- The function `l_dn`; `addr0` is the indeterminate content of the
automatic array `char addr[NI_MAXHOST]` before `getnameinfo` is called. -/
def l_dn (net : Net) (addr0 : String) (L : lua_State) (ai_family : Int) : Result DnOutcome :=
  match luaL_checkstring L 1 with
  | Result.raise msg => Result.raise msg
  | Result.fuel => Result.fuel
  | Result.ret (L1, hostname) =>
    let err := (net.getaddrinfo (c_str hostname) ai_family).1
    let rp := (net.getaddrinfo (c_str hostname) ai_family).2
    if err ≠ 0 then
      Result.ret { state := lua_pushnil L1, nresults := 1,
                   cerr := "Could not resolve " ++ c_str hostname ++ " : "
                     ++ net.gai_strerror err ++ "\n" }
    else
      let addr := (net.getnameinfo rp addr0).2
      Result.ret { state := lua_pushstring L1 (c_str addr), nresults := 1, cerr := "" }

def l_dn6 (net : Net) (addr0 : String) (L : lua_State) : Result DnOutcome :=
  l_dn net addr0 L AF_INET6

def l_dn4 (net : Net) (addr0 : String) (L : lua_State) : Result DnOutcome :=
  l_dn net addr0 L AF_INET

/-! ## Descriptions used in the statements -/

/-- A frame of the engine: `lower` are the slots of the callers, `fn` the
slot `ci->func` of the running C function and `S` its value stack, bottom
first. -/
def frame (lower : List TValue) (fn : TValue) (S : List TValue) (G : Table) (gt : Nat) :
    lua_State :=
  { slots := lower ++ fn :: S, func := lower.length, l_gt := G, gtId := gt }

/-- The text after the type label in the rendering of a value. -/
def renderBody : TValue → String
  | .string s => c_str s
  | .boolean b => if b then "true" else "false"
  | .number n => ostream_double n
  | .userdata _ dbg => dbg
  | _ => ""

/-- The rendering of a value: type label, `": "`, body. -/
def renderValue (v : TValue) : String :=
  lua_typename (ttype v) ++ ": " ++ renderBody v

/-- A key is string-like when it is a string or a number. -/
def stringLike : TValue → Bool
  | .string _ => true
  | .number _ => true
  | _ => false

def isNumber : TValue → Bool
  | .number _ => true
  | _ => false

/-- The key as it stands on the stack after `luaL_checkstring`: a number
has been converted to a string in its slot. -/
def stackKey : TValue → TValue
  | .number n => TValue.string (lua_Number2str n)
  | k => k

/-- The text of a string-like key. -/
def keyText : TValue → String
  | .string s => c_str s
  | .number n => c_str (lua_Number2str n)
  | _ => ""

/-- The text of one entry of the Globals section. -/
def entryText (e : TValue × TValue) : String :=
  (if stringLike e.1 then "[" ++ keyText e.1 ++ "] " else "") ++ renderValue e.2 ++ " / "

/-- The entries of the Globals section, in traversal order. -/
def globalsText : Table → String
  | [] => ""
  | e :: es => entryText e ++ globalsText es

/-- The lines of the stack section for the slots `vs`, the first of them
at position `i`. -/
def stackLines : Nat → List TValue → String
  | _, [] => ""
  | i, v :: vs => "[" ++ toString i ++ "] " ++ renderValue v ++ "\n" ++ stackLines (i + 1) vs

/-- The stack section: header, one line per slot, separator. -/
def stackSection (f : String) (l : Nat) (S : List TValue) : String :=
  "Stack content (at " ++ f ++ "/" ++ toString l ++ "):" ++ "\n"
    ++ stackLines 1 S ++ "===========" ++ "\n"

/-- A table as the engine keeps it: no nil key, no key twice. -/
def TableWf (G : Table) : Prop :=
  (G.map Prod.fst).Nodup ∧ ∀ e ∈ G, e.1 ≠ TValue.nil

instance (G : Table) : Decidable (TableWf G) := by
  unfold TableWf; infer_instance

/-- No key of the table is a number. -/
def NoNumberKey (G : Table) : Prop := ∀ e ∈ G, isNumber e.1 = false

instance (G : Table) : Decidable (NoNumberKey G) := by
  unfold NoNumberKey; infer_instance

/-! ## Concrete inputs -/

/-- The slot of the running C function in the example frames. -/
def exFn : TValue := TValue.function 0

/-- A stack holding, bottom to top, `true` and `42`. -/
def exStack : List TValue := [TValue.boolean true, TValue.number 42]

/-- Globals with the single entry `x = "hello"`. -/
def exGlobals : Table := [(TValue.string "x", TValue.string "hello")]

/-- Globals after the script ran `_G[1] = "a"` on an empty table. -/
def exNumberKeyGlobals : Table := [(TValue.number 1, TValue.string "a")]

/-- A clock whose `nanosleep` fails with `EINTR`. -/
def failClock : Clock :=
  { nanosleep := fun _ => -1, errtext := fun _ => "Interrupted system call" }

/-- A clock whose `nanosleep` succeeds. -/
def okClock : Clock :=
  { nanosleep := fun _ => 0, errtext := fun _ => "" }

/-- A string-to-number coercion that accepts no string. -/
def noCvt : String → Option Int := fun _ => none

def EAI_NONAME : Int := -2
def EAI_MEMORY : Int := -10

/-- A resolver that knows only `localhost`. -/
def exNet : Net :=
  { getaddrinfo := fun host _ =>
      if host = "localhost" then (0, { family := 2, bytes := [127, 0, 0, 1] })
      else (EAI_NONAME, { family := 0, bytes := [] })
    gai_strerror := fun _ => "Name or service not known"
    getnameinfo := fun _ _ => (0, "127.0.0.1") }

/-- A resolver whose `getaddrinfo` succeeds and whose `getnameinfo` fails
with `EAI_MEMORY` without writing the host buffer. -/
def failNet : Net :=
  { getaddrinfo := fun _ _ => (0, { family := 2, bytes := [127, 0, 0, 1] })
    gai_strerror := fun _ => ""
    getnameinfo := fun _ buf => (EAI_MEMORY, buf) }

/-! # Theorems -/

/-! ## Stack access in a frame -/

theorem getElem?_mid (a : List TValue) (x : TValue) (b : List TValue) (n : Nat)
    (h : n = a.length) : (a ++ x :: b)[n]? = some x := by
  subst h
  induction a with
  | nil => simp
  | cons y ys ih => simpa using ih

theorem slotAt_pos (lower : List TValue) (fn : TValue) (done : List TValue) (v : TValue)
    (rest : List TValue) (G : Table) (gt : Nat) :
    slotAt (frame lower fn (done ++ v :: rest) G gt) ((done.length : Int) + 1) = some v := by
  have h1 : (0 : Int) < (done.length : Int) + 1 := by omega
  have h2 : ((done.length : Int) + 1).toNat = done.length + 1 := by omega
  have h3 : lower ++ fn :: (done ++ v :: rest) = (lower ++ fn :: done) ++ v :: rest := by simp
  simp only [slotAt, index2addr, frame, h1, h2, if_true]
  rw [if_pos (by simp)]
  simp only [h3]
  exact getElem?_mid _ _ _ _ (by simp)

theorem slotAt_neg1 (base : List TValue) (v : TValue) (fnc : Nat) (G : Table) (gt : Nat)
    (h : fnc < base.length) :
    slotAt ⟨base ++ [v], fnc, G, gt⟩ (-1) = some v := by
  have h1 : ¬ ((0 : Int) < -1) := by omega
  simp only [slotAt, index2addr, lua_gettop, h1, if_false]
  rw [if_pos (by simp; omega)]
  exact getElem?_mid _ _ _ _ (by simp)

theorem slotAt_neg2 (base : List TValue) (u v : TValue) (fnc : Nat) (G : Table) (gt : Nat)
    (h : fnc < base.length) :
    slotAt ⟨base ++ [u, v], fnc, G, gt⟩ (-2) = some u := by
  have h1 : ¬ ((0 : Int) < -2) := by omega
  simp only [slotAt, index2addr, lua_gettop, h1, if_false]
  rw [if_pos (by simp; omega)]
  exact getElem?_mid _ _ _ _ (by simp)

theorem stackKey_of_not_number (k : TValue) (h : isNumber k = false) : stackKey k = k := by
  cases k <;> simp_all [stackKey, isNumber]

/-! ## `print_object` -/

theorem lua_tolstring_string (L : lua_State) (i : Int) (s : String)
    (h : slotAt L i = some (TValue.string s)) : lua_tolstring L i = (L, some s) := by
  unfold slotAt at h
  unfold lua_tolstring
  cases ho : index2addr L i with
  | none => simp [ho] at h
  | some o => simp [ho] at h; simp [h]

theorem luaL_checkstring_string (L : lua_State) (i : Int) (s : String)
    (h : slotAt L i = some (TValue.string s)) : luaL_checkstring L i = Result.ret (L, s) := by
  simp [luaL_checkstring, lua_tolstring_string L i s h]

theorem print_object_eq (L : lua_State) (i : Int) (out : String) (v : TValue)
    (h : slotAt L i = some v) :
    print_object L i out = (L, out ++ renderValue v) := by
  have ht : lua_type L i = ttype v := by simp [lua_type, h]
  cases v with
  | string s =>
    simp [print_object, ht, lua_tolstring_string L i s h, ttype, renderValue, renderBody,
      String.append_assoc, LUA_TSTRING]
  | boolean b =>
    simp [print_object, ht, ttype, renderValue, renderBody, String.append_assoc,
      LUA_TSTRING, LUA_TBOOLEAN, lua_toboolean, h]
  | number n =>
    simp [print_object, ht, ttype, renderValue, renderBody, String.append_assoc,
      LUA_TSTRING, LUA_TBOOLEAN, LUA_TNUMBER, lua_tonumber, h]
  | userdata p d =>
    simp [print_object, ht, ttype, renderValue, renderBody, String.append_assoc,
      LUA_TSTRING, LUA_TBOOLEAN, LUA_TNUMBER, LUA_TUSERDATA, h]
  | _ =>
    simp [print_object, ht, ttype, renderValue, renderBody, String.append_assoc,
      LUA_TSTRING, LUA_TBOOLEAN, LUA_TNUMBER, LUA_TUSERDATA, LUA_TNIL, LUA_TLIGHTUSERDATA,
      LUA_TTABLE, LUA_TFUNCTION, LUA_TTHREAD]

/-! ## Stack primitives -/

theorem lua_pop_one (base : List TValue) (x : TValue) (fnc : Nat) (G : Table) (gt : Nat) :
    lua_pop ⟨base ++ [x], fnc, G, gt⟩ 1 = ⟨base, fnc, G, gt⟩ := by
  have h1 : ¬ ((0 : Int) ≤ -1 - 1) := by omega
  have h2 : (((base ++ [x]).length : Int) + (-1 - 1) + 1).toNat = base.length := by
    simp; omega
  simp only [lua_pop, lua_settop, h1, if_false, h2]
  simp

theorem lua_pop_frame (lower : List TValue) (fn : TValue) (S : List TValue) (G : Table)
    (gt : Nat) :
    lua_pop (frame lower fn S G gt) ((S.length : Int) + 1) = ⟨lower, lower.length, G, gt⟩ := by
  have h1 : ¬ ((0 : Int) ≤ -((S.length : Int) + 1) - 1) := by omega
  have h2 : (((lower ++ fn :: S).length : Int) + (-((S.length : Int) + 1) - 1) + 1).toNat
      = lower.length := by
    simp; omega
  simp only [lua_pop, lua_settop, frame, h1, if_false, h2]
  simp

theorem lua_gettop_frame (lower : List TValue) (fn : TValue) (S : List TValue) (G : Table)
    (gt : Nat) : lua_gettop (frame lower fn S G gt) = S.length := by
  simp [lua_gettop, frame]

/-! ## Traversal of the table of globals -/

theorem luaH_next_nil (G : Table) : luaH_next G TValue.nil = some G.head? := by
  cases G <;> rfl

theorem luaH_next_cons_ne (k v key : TValue) (rest : Table) (hk : key ≠ TValue.nil)
    (hne : k ≠ key) : luaH_next ((k, v) :: rest) key = luaH_next rest key := by
  cases key <;> simp_all [luaH_next]

theorem luaH_next_cons_eq (k v : TValue) (rest : Table) (hk : k ≠ TValue.nil) :
    luaH_next ((k, v) :: rest) k = some rest.head? := by
  cases k <;> simp_all [luaH_next]

theorem luaH_next_at (pre : Table) (k v : TValue) (suf : Table) (hk : k ≠ TValue.nil)
    (hnd : ((pre ++ (k, v) :: suf).map Prod.fst).Nodup) :
    luaH_next (pre ++ (k, v) :: suf) k = some suf.head? := by
  induction pre with
  | nil => exact luaH_next_cons_eq k v suf hk
  | cons e pre ih =>
    obtain ⟨k1, v1⟩ := e
    simp only [List.cons_append, List.map_cons, List.nodup_cons] at hnd
    have hne : k1 ≠ k := by
      intro h
      apply hnd.1
      subst h
      simp
    rw [List.cons_append, luaH_next_cons_ne k1 v1 k _ hk hne]
    exact ih hnd.2

theorem lua_next_more (base : List TValue) (key k1 v1 : TValue) (fnc : Nat) (G : Table)
    (gt : Nat) (hf : fnc < base.length)
    (hnext : luaH_next G key = some (some (k1, v1))) :
    lua_next ⟨base ++ [TValue.table gt, key], fnc, G, gt⟩ (-2)
      = Result.ret (1, ⟨base ++ [TValue.table gt, k1, v1], fnc, G, gt⟩) := by
  have hl : (base ++ [TValue.table gt, key]).getLast? = some key := by
    rw [show base ++ [TValue.table gt, key] = (base ++ [TValue.table gt]) ++ [key] by simp]
    exact List.getLast?_concat _
  have hd : (base ++ [TValue.table gt, key]).dropLast ++ [k1, v1]
      = base ++ [TValue.table gt, k1, v1] := by
    rw [show base ++ [TValue.table gt, key] = (base ++ [TValue.table gt]) ++ [key] by simp]
    rw [List.dropLast_concat]
    simp
  simp only [lua_next, slotAt_neg2 base _ key fnc G gt hf, hl, hnext, if_true, hd]

theorem lua_next_done (base : List TValue) (key : TValue) (fnc : Nat) (G : Table)
    (gt : Nat) (hf : fnc < base.length)
    (hnext : luaH_next G key = some none) :
    lua_next ⟨base ++ [TValue.table gt, key], fnc, G, gt⟩ (-2)
      = Result.ret (0, ⟨base ++ [TValue.table gt], fnc, G, gt⟩) := by
  have hl : (base ++ [TValue.table gt, key]).getLast? = some key := by
    rw [show base ++ [TValue.table gt, key] = (base ++ [TValue.table gt]) ++ [key] by simp]
    exact List.getLast?_concat _
  have hd : (base ++ [TValue.table gt, key]).dropLast = base ++ [TValue.table gt] := by
    rw [show base ++ [TValue.table gt, key] = (base ++ [TValue.table gt]) ++ [key] by simp]
    rw [List.dropLast_concat]
  simp only [lua_next, slotAt_neg2 base _ key fnc G gt hf, hl, hnext, if_true, hd]

theorem lua_next_invalid (base : List TValue) (key : TValue) (fnc : Nat) (G : Table)
    (gt : Nat) (hf : fnc < base.length)
    (hnext : luaH_next G key = none) :
    lua_next ⟨base ++ [TValue.table gt, key], fnc, G, gt⟩ (-2)
      = Result.raise "invalid key to 'next'" := by
  have hl : (base ++ [TValue.table gt, key]).getLast? = some key := by
    rw [show base ++ [TValue.table gt, key] = (base ++ [TValue.table gt]) ++ [key] by simp]
    exact List.getLast?_concat _
  simp only [lua_next, slotAt_neg2 base _ key fnc G gt hf, hl, hnext, if_true]

theorem set_mid (a : List TValue) (x y : TValue) (b : List TValue) (n : Nat)
    (h : n = a.length) : (a ++ x :: b).set n y = a ++ y :: b := by
  subst h
  induction a with
  | nil => simp
  | cons z zs ih => simp [ih]

theorem index2addr_neg2 (base : List TValue) (u v : TValue) (fnc : Nat) (G : Table) (gt : Nat)
    (h : fnc < base.length) :
    index2addr ⟨base ++ [u, v], fnc, G, gt⟩ (-2) = some base.length := by
  have h1 : ¬ ((0 : Int) < -2) := by omega
  simp only [index2addr, lua_gettop, h1, if_false]
  rw [if_pos (by simp; omega)]
  simp

/-- What `luaL_checkstring(L, -2)` in the Globals loop does with the key
`k` below the value `v`. -/
theorem globals_key_text (base : List TValue) (k v : TValue) (fnc : Nat) (G : Table)
    (gt : Nat) (out : String) (hf : fnc < base.length) :
    (if lua_isstring ⟨base ++ [k, v], fnc, G, gt⟩ (-2) then
        match luaL_checkstring ⟨base ++ [k, v], fnc, G, gt⟩ (-2) with
        | Result.ret (L2, s) => Result.ret (L2, out ++ "[" ++ c_str s ++ "] ")
        | Result.raise msg => Result.raise msg
        | Result.fuel => Result.fuel
      else Result.ret (⟨base ++ [k, v], fnc, G, gt⟩, out))
      = Result.ret (⟨base ++ [stackKey k, v], fnc, G, gt⟩,
          out ++ (if stringLike k then "[" ++ keyText k ++ "] " else "")) := by
  have hty : lua_type ⟨base ++ [k, v], fnc, G, gt⟩ (-2) = ttype k := by
    simp [lua_type, slotAt_neg2 base k v fnc G gt hf]
  have hidx := index2addr_neg2 base k v fnc G gt hf
  have hget : (base ++ [k, v])[base.length]? = some k := getElem?_mid _ _ _ _ rfl
  cases k with
  | string s =>
    simp [lua_isstring, hty, ttype, luaL_checkstring, lua_tolstring, hidx, hget, stackKey,
      stringLike, keyText, String.append_assoc, LUA_TSTRING]
  | number m =>
    have hset : (base ++ [TValue.number m, v]).set base.length
        (TValue.string (lua_Number2str m)) = base ++ [TValue.string (lua_Number2str m), v] :=
      set_mid _ _ _ _ _ rfl
    simp [lua_isstring, hty, ttype, luaL_checkstring, lua_tolstring, hidx, hget, hset, stackKey,
      stringLike, keyText, String.append_assoc, LUA_TSTRING, LUA_TNUMBER]
  | _ =>
    simp [lua_isstring, hty, ttype, stackKey, stringLike, LUA_TSTRING, LUA_TNUMBER, LUA_TNIL,
      LUA_TBOOLEAN, LUA_TLIGHTUSERDATA, LUA_TTABLE, LUA_TFUNCTION, LUA_TUSERDATA, LUA_TTHREAD]

theorem globalsLoop_done (n : Nat) (base : List TValue) (key : TValue) (fnc : Nat)
    (G : Table) (gt : Nat) (out : String) (hf : fnc < base.length)
    (hnext : luaH_next G key = some none) :
    globalsLoop (n + 1) ⟨base ++ [TValue.table gt, key], fnc, G, gt⟩ out
      = Result.ret (⟨base ++ [TValue.table gt], fnc, G, gt⟩, out) := by
  simp [globalsLoop, lua_next_done base key fnc G gt hf hnext]

theorem globalsLoop_invalid (n : Nat) (base : List TValue) (key : TValue) (fnc : Nat)
    (G : Table) (gt : Nat) (out : String) (hf : fnc < base.length)
    (hnext : luaH_next G key = none) :
    globalsLoop (n + 1) ⟨base ++ [TValue.table gt, key], fnc, G, gt⟩ out
      = Result.raise "invalid key to 'next'" := by
  simp [globalsLoop, lua_next_invalid base key fnc G gt hf hnext]

theorem globalsLoop_step (n : Nat) (base : List TValue) (key k1 v1 : TValue) (fnc : Nat)
    (G : Table) (gt : Nat) (out : String) (hf : fnc < base.length)
    (hnext : luaH_next G key = some (some (k1, v1))) :
    globalsLoop (n + 1) ⟨base ++ [TValue.table gt, key], fnc, G, gt⟩ out
      = globalsLoop n ⟨base ++ [TValue.table gt, stackKey k1], fnc, G, gt⟩
          (out ++ entryText (k1, v1)) := by
  have hf1 : fnc < (base ++ [TValue.table gt]).length := by simp; omega
  have hf2 : fnc < (base ++ [TValue.table gt, stackKey k1]).length := by simp; omega
  have e1 : base ++ [TValue.table gt, k1, v1] = (base ++ [TValue.table gt]) ++ [k1, v1] := by
    simp
  have e2 : (base ++ [TValue.table gt]) ++ [stackKey k1, v1]
      = (base ++ [TValue.table gt, stackKey k1]) ++ [v1] := by
    simp
  have hval : slotAt ⟨(base ++ [TValue.table gt]) ++ [stackKey k1, v1], fnc, G, gt⟩ (-1)
      = some v1 := by
    rw [e2]; exact slotAt_neg1 _ _ _ _ _ hf2
  have hpop : lua_pop ⟨(base ++ [TValue.table gt]) ++ [stackKey k1, v1], fnc, G, gt⟩ 1
      = ⟨base ++ [TValue.table gt, stackKey k1], fnc, G, gt⟩ := by
    rw [e2]; exact lua_pop_one _ _ _ _ _
  rw [globalsLoop, lua_next_more base key k1 v1 fnc G gt hf hnext]
  simp only [e1, globals_key_text (base ++ [TValue.table gt]) k1 v1 fnc G gt out hf1,
    print_object_eq _ _ _ _ hval, hpop]
  simp [entryText, String.append_assoc]

/-- The loop over the globals leaves the table alone on the stack, whatever
the table holds. -/
theorem globalsLoop_shape (G : Table) (gt fnc : Nat) (base : List TValue)
    (hf : fnc < base.length) (n : Nat) :
    ∀ (key : TValue) (out : String) (Lc : lua_State) (o : String),
      globalsLoop n ⟨base ++ [TValue.table gt, key], fnc, G, gt⟩ out = Result.ret (Lc, o) →
      Lc = ⟨base ++ [TValue.table gt], fnc, G, gt⟩ := by
  induction n with
  | zero =>
    intro key out Lc o h
    simp [globalsLoop] at h
  | succ m ih =>
    intro key out Lc o h
    cases hn : luaH_next G key with
    | none =>
      rw [globalsLoop_invalid m base key fnc G gt out hf hn] at h
      cases h
    | some r =>
      cases r with
      | none =>
        rw [globalsLoop_done m base key fnc G gt out hf hn] at h
        cases h
        rfl
      | some e =>
        obtain ⟨k1, v1⟩ := e
        rw [globalsLoop_step m base key k1 v1 fnc G gt out hf hn] at h
        exact ih _ _ _ _ h

theorem globalsLoop_from (suf : Table) :
    ∀ (pre : Table) (k0 v0 : TValue) (n : Nat) (base : List TValue) (fnc gt : Nat)
      (out : String),
      fnc < base.length → suf.length < n →
      TableWf (pre ++ (k0, v0) :: suf) → NoNumberKey (pre ++ (k0, v0) :: suf) →
      globalsLoop n ⟨base ++ [TValue.table gt, k0], fnc, pre ++ (k0, v0) :: suf, gt⟩ out
        = Result.ret (⟨base ++ [TValue.table gt], fnc, pre ++ (k0, v0) :: suf, gt⟩,
            out ++ globalsText suf) := by
  induction suf with
  | nil =>
    intro pre k0 v0 n base fnc gt out hf hn hwf _
    obtain ⟨m, rfl⟩ : ∃ m, n = m + 1 := ⟨n - 1, by simp at hn; omega⟩
    have hk0 : k0 ≠ TValue.nil := hwf.2 (k0, v0) (by simp)
    have hnext := luaH_next_at pre k0 v0 [] hk0 hwf.1
    rw [globalsLoop_done m base k0 fnc _ gt out hf (by simpa using hnext)]
    simp [globalsText]
  | cons e suf ih =>
    intro pre k0 v0 n base fnc gt out hf hn hwf hnum
    obtain ⟨k1, v1⟩ := e
    obtain ⟨m, rfl⟩ : ∃ m, n = m + 1 := ⟨n - 1, by simp at hn; omega⟩
    have hk0 : k0 ≠ TValue.nil := hwf.2 (k0, v0) (by simp)
    have hnext := luaH_next_at pre k0 v0 ((k1, v1) :: suf) hk0 hwf.1
    have hk1 : stackKey k1 = k1 := stackKey_of_not_number k1 (hnum (k1, v1) (by simp))
    rw [globalsLoop_step m base k0 k1 v1 fnc _ gt out hf (by simpa using hnext), hk1]
    have hG : pre ++ (k0, v0) :: (k1, v1) :: suf = (pre ++ [(k0, v0)]) ++ (k1, v1) :: suf := by
      simp
    rw [hG] at hwf hnum ⊢
    rw [ih (pre ++ [(k0, v0)]) k1 v1 m base fnc gt _ hf (by simp at hn; omega) hwf hnum]
    simp [globalsText, String.append_assoc]

theorem globalsLoop_all (G : Table) (n : Nat) (base : List TValue) (fnc gt : Nat)
    (out : String) (hf : fnc < base.length) (hn : G.length < n)
    (hwf : TableWf G) (hnum : NoNumberKey G) :
    globalsLoop n ⟨base ++ [TValue.table gt, TValue.nil], fnc, G, gt⟩ out
      = Result.ret (⟨base ++ [TValue.table gt], fnc, G, gt⟩, out ++ globalsText G) := by
  obtain ⟨m, rfl⟩ : ∃ m, n = m + 1 := ⟨n - 1, by omega⟩
  cases G with
  | nil =>
    rw [globalsLoop_done m base _ fnc _ gt out hf (by simp [luaH_next_nil])]
    simp [globalsText]
  | cons e suf =>
    obtain ⟨k1, v1⟩ := e
    have hk1 : stackKey k1 = k1 := stackKey_of_not_number k1 (hnum (k1, v1) (by simp))
    rw [globalsLoop_step m base _ k1 v1 fnc _ gt out hf (by simp [luaH_next_nil]), hk1]
    have := globalsLoop_from suf [] k1 v1 m base fnc gt (out ++ entryText (k1, v1)) hf
      (by simp at hn; omega) hwf hnum
    simp only [List.nil_append] at this
    rw [this]
    simp [globalsText, String.append_assoc]

/-! ## The loop over the stack and the whole dump -/

theorem toString_natCast (n : Nat) : toString ((n : Nat) : Int) = toString n := rfl

theorem stackLoop_from (lower : List TValue) (fn : TValue) (G : Table) (gt : Nat)
    (rest : List TValue) :
    ∀ (done : List TValue) (out : String),
      stackLoop ((done ++ rest).length : Int) rest.length ((done.length : Int) + 1)
          (frame lower fn (done ++ rest) G gt) out
        = (frame lower fn (done ++ rest) G gt, out ++ stackLines (done.length + 1) rest,
            ((done ++ rest).length : Int) + 1) := by
  induction rest with
  | nil =>
    intro done out
    simp [stackLoop, stackLines]
  | cons v rest ih =>
    intro done out
    have hle : (done.length : Int) + 1 ≤ ((done ++ v :: rest).length : Int) := by
      simp
    have hcast : ((done.length : Int) + 1) = ((done.length + 1 : Nat) : Int) := by
      simp
    have hS : done ++ v :: rest = (done ++ [v]) ++ rest := by simp
    have hi : ((done.length : Int) + 1 + 1) = (((done ++ [v]).length : Nat) : Int) + 1 := by
      simp
    simp only [stackLoop, List.length_cons, hle, if_true,
      print_object_eq _ _ _ _ (slotAt_pos lower fn done v rest G gt)]
    rw [hi, hS, ih (done ++ [v]) _, hcast, toString_natCast]
    simp [stackLines, String.append_assoc]

theorem pushed_frame (lower : List TValue) (fn : TValue) (S : List TValue) (G : Table)
    (gt : Nat) :
    lua_pushnil (lua_pushglobaltable (frame lower fn S G gt))
      = ⟨(lower ++ fn :: S) ++ [TValue.table gt, TValue.nil], lower.length, G, gt⟩ := by
  simp [lua_pushnil, lua_pushglobaltable, lua_pushvalue_raw, frame]

/-- The dump in terms of its loop over the globals, for every table of
globals: once that loop is through, the stack section of `S` follows and
the frame and its function slot are popped. -/
theorem stackDump_after_globals (lower : List TValue) (fn : TValue) (S : List TValue)
    (G : Table) (gt : Nat) (f : String) (l : Nat) (out : String) (fuel : Nat) :
    stackDump fuel (frame lower fn S G gt) f l out
      = match globalsLoop fuel (lua_pushnil (lua_pushglobaltable (frame lower fn S G gt)))
            (out ++ "Globals:" ++ "\n") with
        | Result.ret (_, pre) =>
          Result.ret (⟨lower, lower.length, G, gt⟩,
            pre ++ ("------------" ++ "\n" ++ stackSection f l S))
        | Result.raise msg => Result.raise msg
        | Result.fuel => Result.fuel := by
  have hf : lower.length < (lower ++ fn :: S).length := by simp
  have hst := stackLoop_from lower fn G gt S []
  simp only [List.nil_append, List.length_nil, Nat.cast_zero, zero_add] at hst
  unfold stackDump
  dsimp only
  generalize hg : globalsLoop fuel (lua_pushnil (lua_pushglobaltable (frame lower fn S G gt)))
      (out ++ "Globals:" ++ "\n") = r
  cases r with
  | raise msg => rfl
  | fuel => rfl
  | ret r =>
    obtain ⟨Lc, pre⟩ := r
    have hshape : Lc = ⟨(lower ++ fn :: S) ++ [TValue.table gt], lower.length, G, gt⟩ := by
      rw [pushed_frame] at hg
      exact globalsLoop_shape G gt lower.length (lower ++ fn :: S) hf fuel _ _ _ _ hg
    have hpop : lua_pop ⟨(lower ++ fn :: S) ++ [TValue.table gt], lower.length, G, gt⟩ 1
        = frame lower fn S G gt := lua_pop_one _ _ _ _ _
    subst hshape
    simp only [hpop, lua_gettop_frame, Int.toNat_ofNat, hst, lua_pop_frame]
    simp only [stackSection, String.append_assoc]

theorem stackDump_eq (lower : List TValue) (fn : TValue) (S : List TValue) (G : Table)
    (gt : Nat) (f : String) (l : Nat) (out : String) (fuel : Nat)
    (hfuel : G.length < fuel) (hwf : TableWf G) (hnum : NoNumberKey G) :
    stackDump fuel (frame lower fn S G gt) f l out
      = Result.ret (⟨lower, lower.length, G, gt⟩,
          out ++ "Globals:" ++ "\n" ++ globalsText G
            ++ ("------------" ++ "\n" ++ stackSection f l S)) := by
  have hf : lower.length < (lower ++ fn :: S).length := by simp
  have hloop := globalsLoop_all G fuel (lower ++ fn :: S) lower.length gt
    (out ++ "Globals:" ++ "\n") hf hfuel hwf hnum
  rw [stackDump_after_globals, pushed_frame, hloop]

/-! ## `stackDump` -/

/-- C1 (evaluation at the failing input): called on a frame whose stack
holds `true` and `42` (depth 2), `stackDump` ends with `lua_pop(L, i)` where
`i = top + 1 = 3`; it returns with both slots and the function slot below
them popped, `lua_gettop` being -1 instead of 2. -/
theorem stackDump_pops_frame :
    lua_gettop (frame [] exFn exStack exGlobals 0) = 2
    ∧ stackDump 2 (frame [] exFn exStack exGlobals 0) "f" 3 ""
      = Result.ret ({ slots := [], func := 0, l_gt := exGlobals, gtId := 0 },
          "Globals:\n[x] string: hello / ------------\n"
            ++ "Stack content (at f/3):\n[1] boolean: true\n[2] number: 42\n===========\n")
    ∧ lua_gettop { slots := [], func := 0, l_gt := exGlobals, gtId := 0 } = -1 := by
  decide

/-- C4 (evaluation at the failing input): with the single global
`_G[1] = "a"`, `luaL_checkstring` turns the number key on the stack into the
string `"1"`, which is not a key of the table, and the next `lua_next`
raises `invalid key to 'next'`; the dump does not return and the section
is never closed. -/
theorem stackDump_number_key_raises :
    stackDump 5 (frame [] exFn exStack exNumberKeyGlobals 0) "f" 3 ""
      = Result.raise "invalid key to 'next'"
    ∧ globalsLoop 1
        (lua_pushnil (lua_pushglobaltable (frame [] exFn exStack exNumberKeyGlobals 0)))
        "Globals:\n"
      = Result.fuel
    ∧ globalsLoop 2
        (lua_pushnil (lua_pushglobaltable (frame [] exFn exStack exNumberKeyGlobals 0)))
        "Globals:\n"
      = Result.raise "invalid key to 'next'" := by
  decide

theorem globalsText_ends_with_delimiter (G : Table) :
    G ≠ [] → ∃ t, globalsText G = t ++ " / " := by
  induction G with
  | nil => intro h; exact absurd rfl h
  | cons e es ih =>
    intro _
    cases es with
    | nil =>
      exact ⟨(if stringLike e.1 then "[" ++ keyText e.1 ++ "] " else "") ++ renderValue e.2, by
        simp [globalsText, entryText]⟩
    | cons e2 es2 =>
      obtain ⟨t, ht⟩ := ih (by simp)
      exact ⟨entryText e ++ t, by
        rw [globalsText, ht, String.append_assoc]⟩

set_option maxRecDepth 100000 in
/-- C8 (counterexample): with the single global `x = "hello"` the output
is `Globals:\n[x] string: hello / ------------\n...`: the separator follows
the delimiter ` / ` on the line of the entries, and nowhere in the output
does `------------` start right after a newline. -/
theorem stackDump_separator_not_on_own_line :
    stackDump 2 (frame [] exFn [] exGlobals 0) "f" 3 ""
      = Result.ret ({ slots := [], func := 0, l_gt := exGlobals, gtId := 0 },
          "Globals:\n[x] string: hello / ------------\nStack content (at f/3):\n===========\n")
    ∧ ¬ ("\n------------".data
          <:+: ("Globals:\n[x] string: hello / ------------\n"
                  ++ "Stack content (at f/3):\n===========\n").data) := by
  decide

/-- C8 (amended): for every frame whose table of globals has no number
key, the dump returns and its output is: the line `Globals:`; then the
entries in traversal order, each followed by the delimiter ` / `; then,
directly after the last delimiter and on the same line (on a line of its
own only when there is no entry), the separator `------------` and a
newline; then the stack section `Stack content (at <location>/<line>):`
with its lines and its separator.  The text of the entries is empty for an
empty table and ends with the delimiter otherwise. -/
theorem stackDump_layout (lower : List TValue) (fn : TValue) (S : List TValue) (G : Table)
    (gt : Nat) (f : String) (l : Nat) (out : String) (fuel : Nat)
    (hwf : TableWf G) (hnum : NoNumberKey G) (hfuel : G.length < fuel) :
    (∃ Lf, stackDump fuel (frame lower fn S G gt) f l out
      = Result.ret (Lf, out ++ "Globals:\n" ++ globalsText G ++ "------------\n"
          ++ stackSection f l S))
    ∧ (G = [] → globalsText G = "")
    ∧ (G ≠ [] → ∃ t, globalsText G = t ++ " / ") := by
  refine ⟨⟨⟨lower, lower.length, G, gt⟩, ?_⟩, ?_, globalsText_ends_with_delimiter G⟩
  · rw [stackDump_eq lower fn S G gt f l out fuel hfuel hwf hnum]
    have h1 : "Globals:\n" = "Globals:" ++ "\n" := by decide
    have h2 : "------------\n" = "------------" ++ "\n" := by decide
    rw [h1, h2]
    simp only [String.append_assoc]
  · intro hG
    rw [hG]
    rfl

/-- Witness of C8 (amended): the global `x = "hello"` and the stack `true`,
`42`. -/
theorem stackDump_layout_witness :
    TableWf exGlobals ∧ NoNumberKey exGlobals ∧ exGlobals.length < 2
    ∧ globalsText exGlobals = "[x] string: hello / "
    ∧ ∃ Lf, stackDump 2 (frame [] exFn exStack exGlobals 0) "f" 3 ""
        = Result.ret (Lf, "" ++ "Globals:\n" ++ globalsText exGlobals ++ "------------\n"
            ++ stackSection "f" 3 exStack) :=
  ⟨by decide, by decide, by decide, by decide,
    (stackDump_layout [] exFn exStack exGlobals 0 "f" 3 "" 2
      (by decide) (by decide) (by decide)).1⟩

/-! ## `print_object` -/

/-- C6 (counterexample): a number is not one of string, boolean, userdata,
yet it has a body: slot `42` is rendered `number: 42`, not `number: `; and
a string is written through `const char*`, so that `"a\0b"` is rendered
`string: a`, not its literal text. -/
theorem print_object_body_counterexample :
    print_object (frame [] exFn [TValue.number 42] [] 0) 1 ""
      = (frame [] exFn [TValue.number 42] [] 0, "number: 42")
    ∧ print_object (frame [] exFn [TValue.number 42] [] 0) 1 ""
      ≠ (frame [] exFn [TValue.number 42] [] 0, "number: " ++ "")
    ∧ print_object (frame [] exFn [TValue.string "a\x00b"] [] 0) 1 ""
      = (frame [] exFn [TValue.string "a\x00b"] [] 0, "string: a")
    ∧ print_object (frame [] exFn [TValue.string "a\x00b"] [] 0) 1 ""
      ≠ (frame [] exFn [TValue.string "a\x00b"] [] 0, "string: " ++ "a\x00b") := by
  decide

/-- C6 (amended): for every valid stack slot, `print_object` writes the
engine's type name of the slot, then `": "`, then a body that is: the text
of a string up to its first NUL character; `true` or `false` for a boolean;
the stream's text of the number for a number; the text written by the one
call of the object's `debug` for a full userdata; and nothing for every
other tag (nil, light userdata, table, function, thread).  The engine state
is returned unchanged. -/
theorem print_object_renders (L : lua_State) (i : Int) (out : String) (v : TValue)
    (h : slotAt L i = some v) :
    print_object L i out
      = (L, out ++ lua_typename (lua_type L i) ++ ": "
          ++ (match v with
              | TValue.string s => c_str s
              | TValue.boolean b => if b then "true" else "false"
              | TValue.number n => ostream_double n
              | TValue.userdata _ dbg => dbg
              | _ => "")) := by
  have ht : lua_type L i = ttype v := by simp [lua_type, h]
  rw [print_object_eq L i out v h, ht]
  cases v <;> simp [renderValue, renderBody, String.append_assoc]

/-- Witness of C6 (amended): a userdata whose `debug` writes
`Packet<IP/TCP>`, and a nil slot. -/
theorem print_object_renders_witness :
    slotAt (frame [] exFn [TValue.userdata 7 "Packet<IP/TCP>", TValue.nil] [] 0) 1
      = some (TValue.userdata 7 "Packet<IP/TCP>")
    ∧ print_object (frame [] exFn [TValue.userdata 7 "Packet<IP/TCP>", TValue.nil] [] 0) 1 ""
      = (frame [] exFn [TValue.userdata 7 "Packet<IP/TCP>", TValue.nil] [] 0,
          "" ++ lua_typename
              (lua_type (frame [] exFn [TValue.userdata 7 "Packet<IP/TCP>", TValue.nil] [] 0) 1)
            ++ ": " ++ "Packet<IP/TCP>")
    ∧ (print_object (frame [] exFn [TValue.userdata 7 "Packet<IP/TCP>", TValue.nil] [] 0) 2 "").2
      = "nil: " :=
  ⟨by decide,
    print_object_renders _ 1 "" (TValue.userdata 7 "Packet<IP/TCP>") (by decide),
    by decide⟩

/-- C2 (evaluation at the failing input): asked to sleep 1 millisecond,
`l_sleep` passes `tv_sec = 0, tv_nsec = 1000` to `nanosleep`, which is
1000 nanoseconds, less than the 1000000 nanoseconds of one millisecond. -/
theorem l_sleep_one_ms_requests_one_microsecond :
    l_sleep okClock noCvt (frame [] exFn [TValue.number 1] [] 0)
      = Result.ret { state := frame [] exFn [TValue.number 1] [] 0, nresults := 0,
                     requested := [{ tv_sec := 0, tv_nsec := 1000 }], stderr := "" }
    ∧ timespec.nanos { tv_sec := 0, tv_nsec := 1000 } = 1000
    ∧ ¬ (timespec.nanos (l_sleep_tp 1) ≥ 1 * 10 ^ 6) := by
  decide

/-- C7: for every integer argument `ms` in slot 1 and every behaviour of
`nanosleep`, `l_sleep` raises no error, returns result count 0 and leaves
the stack as it was; it calls `nanosleep` once, and a failure of that call
only shows as a `perror` line on `stderr`. -/
theorem l_sleep_returns_no_result (os : Clock) (cvt : String → Option Int) (L : lua_State)
    (ms : Int) (h : slotAt L 1 = some (TValue.number ms)) :
    l_sleep os cvt L
      = Result.ret { state := L, nresults := 0, requested := [l_sleep_tp ms],
                     stderr := if os.nanosleep (l_sleep_tp ms) = 0 then ""
                               else "sleep() failed: " ++ os.errtext (l_sleep_tp ms) ++ "\n" } := by
  unfold l_sleep luaL_checkinteger
  rw [h]
  by_cases hz : os.nanosleep (l_sleep_tp ms) = 0
  · simp [hz]
  · simp [hz, String.append_assoc]

/-- Witness of C7: the argument `-5` and a `nanosleep` that fails. -/
theorem l_sleep_returns_no_result_witness :
    slotAt (frame [] exFn [TValue.number (-5)] [] 0) 1 = some (TValue.number (-5))
    ∧ l_sleep failClock noCvt (frame [] exFn [TValue.number (-5)] [] 0)
      = Result.ret { state := frame [] exFn [TValue.number (-5)] [] 0, nresults := 0,
                     requested := [l_sleep_tp (-5)],
                     stderr := if failClock.nanosleep (l_sleep_tp (-5)) = 0 then ""
                               else "sleep() failed: " ++ failClock.errtext (l_sleep_tp (-5))
                                 ++ "\n" } :=
  ⟨by decide, l_sleep_returns_no_result failClock noCvt _ (-5) (by decide)⟩

/-! ## `l_dn` -/

theorem l_dn_eq (net : Net) (addr0 : String) (L : lua_State) (fam : Int) (h : String)
    (hs : slotAt L 1 = some (TValue.string h)) :
    l_dn net addr0 L fam
      = if (net.getaddrinfo (c_str h) fam).1 ≠ 0 then
          Result.ret { state := lua_pushvalue_raw L TValue.nil, nresults := 1,
                       cerr := "Could not resolve " ++ c_str h ++ " : "
                         ++ net.gai_strerror (net.getaddrinfo (c_str h) fam).1 ++ "\n" }
        else
          Result.ret { state := lua_pushvalue_raw L (TValue.string
                         (c_str (net.getnameinfo (net.getaddrinfo (c_str h) fam).2 addr0).2)),
                       nresults := 1, cerr := "" } := by
  unfold l_dn
  rw [luaL_checkstring_string L 1 h hs]
  rfl

theorem l_dn_one_value (net : Net) (addr0 : String) (L : lua_State) (fam : Int) (h : String)
    (hs : slotAt L 1 = some (TValue.string h)) :
    ∃ v cerr, l_dn net addr0 L fam
        = Result.ret { state := lua_pushvalue_raw L v, nresults := 1, cerr := cerr }
      ∧ (v = TValue.nil ↔ (net.getaddrinfo (c_str h) fam).1 ≠ 0)
      ∧ ((net.getaddrinfo (c_str h) fam).1 = 0 → ∃ s, v = TValue.string s) := by
  rw [l_dn_eq net addr0 L fam h hs]
  by_cases he : (net.getaddrinfo (c_str h) fam).1 = 0
  · rw [if_neg (by simp [he])]
    exact ⟨_, _, rfl, by simp [he], fun _ => ⟨_, rfl⟩⟩
  · rw [if_pos he]
    exact ⟨TValue.nil, _, rfl, by simp [he], fun h0 => absurd h0 he⟩

/-- C5: with a hostname string in slot 1, `l_dn4` and `l_dn6` raise no
error, push exactly one value `v` on the stack and return result count 1;
`v` is nil exactly when `getaddrinfo` reports failure, and a string when it
reports success. -/
theorem l_dn_pushes_nil_iff_resolution_fails (net : Net) (addr0 : String) (L : lua_State)
    (h : String) (hs : slotAt L 1 = some (TValue.string h)) :
    (∃ v cerr, l_dn4 net addr0 L
        = Result.ret { state := { L with slots := L.slots ++ [v] }, nresults := 1, cerr := cerr }
      ∧ (v = TValue.nil ↔ (net.getaddrinfo (c_str h) AF_INET).1 ≠ 0)
      ∧ ((net.getaddrinfo (c_str h) AF_INET).1 = 0 → ∃ s, v = TValue.string s))
    ∧ (∃ v cerr, l_dn6 net addr0 L
        = Result.ret { state := { L with slots := L.slots ++ [v] }, nresults := 1, cerr := cerr }
      ∧ (v = TValue.nil ↔ (net.getaddrinfo (c_str h) AF_INET6).1 ≠ 0)
      ∧ ((net.getaddrinfo (c_str h) AF_INET6).1 = 0 → ∃ s, v = TValue.string s)) :=
  ⟨l_dn_one_value net addr0 L AF_INET h hs, l_dn_one_value net addr0 L AF_INET6 h hs⟩

/-- Witness of C5: a host name that does not resolve; the result is nil and
the failure is reported on `std::cerr`. -/
theorem l_dn_pushes_nil_iff_resolution_fails_witness :
    slotAt (frame [] exFn [TValue.string "this-host-does-not-exist.invalid"] [] 0) 1
      = some (TValue.string "this-host-does-not-exist.invalid")
    ∧ l_dn4 exNet "" (frame [] exFn [TValue.string "this-host-does-not-exist.invalid"] [] 0)
      = Result.ret { state := frame [] exFn
                       [TValue.string "this-host-does-not-exist.invalid", TValue.nil] [] 0,
                     nresults := 1,
                     cerr := "Could not resolve this-host-does-not-exist.invalid : "
                       ++ "Name or service not known\n" }
    ∧ ((∃ v cerr, l_dn4 exNet ""
          (frame [] exFn [TValue.string "this-host-does-not-exist.invalid"] [] 0)
          = Result.ret { state := { frame [] exFn
                           [TValue.string "this-host-does-not-exist.invalid"] [] 0 with
                           slots := (frame [] exFn
                             [TValue.string "this-host-does-not-exist.invalid"] [] 0).slots ++ [v] },
                         nresults := 1, cerr := cerr }
        ∧ (v = TValue.nil
            ↔ (exNet.getaddrinfo (c_str "this-host-does-not-exist.invalid") AF_INET).1 ≠ 0)
        ∧ ((exNet.getaddrinfo (c_str "this-host-does-not-exist.invalid") AF_INET).1 = 0
            → ∃ s, v = TValue.string s))
      ∧ (∃ v cerr, l_dn6 exNet ""
          (frame [] exFn [TValue.string "this-host-does-not-exist.invalid"] [] 0)
          = Result.ret { state := { frame [] exFn
                           [TValue.string "this-host-does-not-exist.invalid"] [] 0 with
                           slots := (frame [] exFn
                             [TValue.string "this-host-does-not-exist.invalid"] [] 0).slots ++ [v] },
                         nresults := 1, cerr := cerr }
        ∧ (v = TValue.nil
            ↔ (exNet.getaddrinfo (c_str "this-host-does-not-exist.invalid") AF_INET6).1 ≠ 0)
        ∧ ((exNet.getaddrinfo (c_str "this-host-does-not-exist.invalid") AF_INET6).1 = 0
            → ∃ s, v = TValue.string s))) :=
  ⟨by decide, by decide,
    l_dn_pushes_nil_iff_resolution_fails exNet "" _ "this-host-does-not-exist.invalid"
      (by decide)⟩

/-- C10 (evaluation at the failing input): `getaddrinfo` succeeds for
`localhost`, `getnameinfo` returns `EAI_MEMORY` and leaves the buffer
`addr` as it was, holding the bytes `"\x01\x02junk"`; `l_dn4` does not look
at the return value and pushes that unset buffer as its result. -/
theorem l_dn_pushes_unset_buffer :
    (failNet.getaddrinfo (c_str "localhost") AF_INET).1 = 0
    ∧ (failNet.getnameinfo (failNet.getaddrinfo (c_str "localhost") AF_INET).2
        "\x01\x02junk").1 ≠ 0
    ∧ l_dn4 failNet "\x01\x02junk" (frame [] exFn [TValue.string "localhost"] [] 0)
      = Result.ret { state := frame [] exFn
                       [TValue.string "localhost", TValue.string "\x01\x02junk"] [] 0,
                     nresults := 1, cerr := "" } := by
  decide

end Tracebox
